import Mathlib

/-!
Shallow embedding of the feo-tracing subscriber pipeline
(src/feo-tracing/src/subscriber.rs): the span-id allocator, the facade
send path (Subscriber::send), the transport worker thread
(Subscriber::thread_main) with its batching BufWriter and flush timer,
and the level filtering of the tracing facade (Subscriber::enabled).

Machine integers are modelled as Nat with explicit reduction modulo 2^64
where the source uses a wrapping AtomicU64.  Time is modelled as a Nat
number of milliseconds carried by the environment events.  Effects of the
external world (connect success, postcard encode result, socket write and
flush results) are inputs of the step function, as the code branches on
them but does not compute them.
-/

namespace FeoTracing

/-- The modulus of the AtomicU64 span-id counter, 2^64. -/
def U64_MOD : Nat := 18446744073709551616

/-- Size of the channel in packets (subscriber.rs line 34). -/
def MPSC_CHANNEL_BOUND : Nat := 512

/-- Flush interval in milliseconds (subscriber.rs line 40). -/
def FLUSH_INTERVAL : Nat := 500

/-- State of the span-id allocator: the value of the static NEXT_ID
AtomicU64 in Subscriber::new_span_id (subscriber.rs line 183), kept
below 2^64. -/
structure AllocState where
  nextId : Nat
deriving Repr, DecidableEq

/-- NEXT_ID is initialized to 1 (subscriber.rs line 183). -/
def allocInit : AllocState := ⟨1⟩

/-- Subscriber::new_span_id (subscriber.rs lines 181-189): the returned id is
NEXT_ID.fetch_add(1, Relaxed), i.e. the previous counter value, the counter
wrapping at 2^64; the id is then passed to span::Id::from_u64, which panics
when the id is 0 because span ids must be nonzero (modelled as none). -/
def new_span_id (s : AllocState) : Option Nat × AllocState :=
  (if s.nextId = 0 then none else some s.nextId, ⟨(s.nextId + 1) % U64_MOD⟩)

/-- Allocator state after k allocations from the initial state. -/
def allocAfter : Nat → AllocState
  | 0 => allocInit
  | k + 1 => (new_span_id (allocAfter k)).2

/-- The id returned by the n-th span-id allocation in the process
(1-indexed); none means span::Id::from_u64 panicked on a zero id. -/
def nthSpanId (n : Nat) : Option Nat := (new_span_id (allocAfter (n - 1))).1

/-- Modelled from the spec: TracePacket (defined in the protocol module,
which is not among the shown sources) is the envelope pairing a capture
timestamp with one TraceData payload; the subscriber treats a packet as an
opaque unit of queueing and encoding, so it is abstracted to a payload tag. -/
structure TracePacket where
  payload : Nat
deriving Repr, DecidableEq

/-- Local state of the worker streaming loop (thread_main, subscriber.rs
lines 202-207): the bytes currently held in the batching BufWriter, the
bytes already flushed to the collector socket, and the last_flush instant
in milliseconds. -/
structure Loop where
  buffer : List Nat
  delivered : List Nat
  lastFlush : Nat
deriving Repr, DecidableEq

/-- Phase of the transport worker thread: connecting at thread start,
the streaming loop, stopped after a logged return (connect failure or
write failure), or panicked via an expect call (flush failure). -/
inductive WStatus
  | connecting
  | streaming (ls : Loop)
  | stopped (ls : Loop)
  | panicked (ls : Loop)
deriving Repr, DecidableEq

/-- Process-wide pipeline state: the enabled latch, the contents of the
bounded mpsc queue, and the worker phase. -/
structure Sys where
  enabled : Bool
  queue : List TracePacket
  wstatus : WStatus
deriving Repr, DecidableEq

/-- The mpsc channel is open while the worker thread, which owns the
receiver, is alive; when thread_main returns or panics the receiver is
dropped and every later sender.send fails. -/
def Sys.channelOpen (s : Sys) : Bool :=
  match s.wstatus with
  | .connecting => true
  | .streaming _ => true
  | .stopped _ => false
  | .panicked _ => false

/-- Bytes flushed to the collector socket so far. -/
def Sys.delivered (s : Sys) : List Nat :=
  match s.wstatus with
  | .connecting => []
  | .streaming ls => ls.delivered
  | .stopped ls => ls.delivered
  | .panicked ls => ls.delivered

/-- Bytes sitting in the batching BufWriter, not yet flushed. -/
def Sys.buffered (s : Sys) : List Nat :=
  match s.wstatus with
  | .connecting => []
  | .streaming ls => ls.buffer
  | .stopped ls => ls.buffer
  | .panicked ls => ls.buffer

/-- State right after init (subscriber.rs lines 43-60): the enabled latch
is created true, the queue is empty, and the worker thread has been
spawned and is about to connect. -/
def sysInit : Sys := ⟨true, [], .connecting⟩

/-- Outcome of one Subscriber::send attempt, recorded for the statements:
skipped (latch-false fast path), latchedOff (channel closed, latch
flipped), enqueued, or blocked (queue full: the call waits inside
sender.send, neither returning nor dropping the packet; a blocked attempt
is modelled as leaving the state unchanged and being retried later). -/
inductive SendOutcome
  | skipped
  | latchedOff
  | enqueued
  | blocked
deriving Repr, DecidableEq

/-- Subscriber::send (subscriber.rs lines 236-247): return immediately if
the enabled latch is false; otherwise call sender.send, which fails iff
the receiving end is disconnected (then the latch is stored false), blocks
while the bounded queue holds MPSC_CHANNEL_BOUND packets, and otherwise
enqueues the packet.  The function never panics and has no error return. -/
def send (st : Sys) (p : TracePacket) : Sys × SendOutcome :=
  if st.enabled = false then (st, .skipped)
  else if st.channelOpen = false then ({ st with enabled := false }, .latchedOff)
  else if st.queue.length < MPSC_CHANNEL_BOUND then
    ({ st with queue := st.queue ++ [p] }, .enqueued)
  else (st, .blocked)

/-- Semantics of io BufWriter write_all on the socket writer
(subscriber.rs line 220) with capacity cap = BUFWRITER_SIZE: when the
bytes fit in the spare capacity they are appended to the buffer, which
cannot fail; otherwise the buffered bytes are first flushed to the socket
(which can fail: none), after which the incoming bytes are written
directly when they are at least cap long, else buffered.  Returns the new
buffer contents and the new socket bytes. -/
def bufWrite (cap : Nat) (buffer delivered bytes : List Nat) (writeOk : Bool) :
    Option (List Nat × List Nat) :=
  if buffer.length + bytes.length ≤ cap then some (buffer ++ bytes, delivered)
  else if writeOk = false then none
  else if cap ≤ bytes.length then some ([], delivered ++ buffer ++ bytes)
  else some (bytes, delivered ++ buffer)

/-- Environment-driven events of the pipeline: a facade call reaching
Subscriber::send; the worker connect attempt (subscriber.rs lines
192-200) with its outcome and the current time; one iteration of the
worker streaming loop (subscriber.rs lines 209-232), carrying the
postcard encode outcome for the received packet, the socket write and
flush outcomes, and the time at which the flush check runs. -/
inductive Ev
  | send (p : TracePacket)
  | connect (ok : Bool) (now : Nat)
  | work (enc : Option (List Nat)) (writeOk : Bool) (flushOk : Bool) (now : Nat)
deriving Repr, DecidableEq

/-- One transition of the pipeline.  The worker only acts in its own
phase: a connect event is meaningful only in the connecting phase, and a
work event only in the streaming phase with a nonempty queue (receiver
recv blocks on an empty queue, and a stopped or panicked thread no longer
runs).  The loop body follows thread_main: encode failure logs and
continues, dropping the one packet; write failure logs, stores false to
the latch and returns; then, if more than FLUSH_INTERVAL elapsed since
last_flush, the BufWriter is flushed (an expect call that panics on flush
failure) and last_flush is reset. -/
def step (cap : Nat) (st : Sys) (e : Ev) : Sys :=
  match e with
  | .send p => (send st p).1
  | .connect ok now =>
    match st.wstatus with
    | .connecting =>
      if ok then { st with wstatus := .streaming ⟨[], [], now⟩ }
      else { st with enabled := false, wstatus := .stopped ⟨[], [], now⟩ }
    | _ => st
  | .work enc writeOk flushOk now =>
    match st.wstatus with
    | .streaming ls =>
      match st.queue with
      | [] => st
      | _ :: rest =>
        match enc with
        | none => { st with queue := rest }
        | some bytes =>
          match bufWrite cap ls.buffer ls.delivered bytes writeOk with
          | none => { st with enabled := false, queue := rest, wstatus := .stopped ls }
          | some (buf, del) =>
            if ls.lastFlush + FLUSH_INTERVAL < now then
              if flushOk then
                { st with queue := rest, wstatus := .streaming ⟨[], del ++ buf, now⟩ }
              else
                { st with queue := rest, wstatus := .panicked ⟨buf, del, ls.lastFlush⟩ }
            else
              { st with queue := rest, wstatus := .streaming ⟨buf, del, ls.lastFlush⟩ }
    | _ => st

/-- Run a sequence of events from a state. -/
def run (cap : Nat) (st : Sys) (evs : List Ev) : Sys :=
  evs.foldl (step cap) st

/-- Subscriber::new_span (subscriber.rs lines 261-276): allocate an id via
new_span_id, build the NewSpan trace packet, pass it to send, and return
the id.  Should span::Id::from_u64 panic on the wrapped-to-zero id, the
call panics before any send. -/
def new_span (a : AllocState) (st : Sys) : Option Nat × AllocState × Sys :=
  match new_span_id a with
  | (some id, a2) => (some id, a2, (send st ⟨id⟩).1)
  | (none, a2) => (none, a2, st)

/-- Level discriminants of tracing-core: Trace is 0 and Error is 4, so the
derived order is reversed relative to verbosity. -/
inductive Level
  | trace
  | debug
  | info
  | warn
  | error
deriving Repr, DecidableEq

/-- The usize discriminant of a Level in tracing-core. -/
def Level.disc : Level → Nat
  | .trace => 0
  | .debug => 1
  | .info => 2
  | .warn => 3
  | .error => 4

/-- LevelFilter values accepted by init (subscriber.rs line 43). -/
inductive LevelFilter
  | off
  | error
  | warn
  | info
  | debug
  | trace
deriving Repr, DecidableEq

/-- filter_as_usize of tracing-core: a present level maps to its
discriminant and OFF maps to 5. -/
def LevelFilter.asUsize : LevelFilter → Nat
  | .off => 5
  | .error => 4
  | .warn => 3
  | .info => 2
  | .debug => 1
  | .trace => 0

/-- Subscriber::enabled (subscriber.rs lines 251-255): the comparison
metadata.level() <= &self.max_level, which tracing-core evaluates as
filter_as_usize(max_level) <= level discriminant. -/
def subscriberEnabled (maxLevel : LevelFilter) (l : Level) : Bool :=
  maxLevel.asUsize ≤ l.disc

/-- Severity-verbosity rank of a level as the spec reads it: error is the
least verbose (rank 1) and trace the most verbose (rank 5). -/
def Level.verbosity : Level → Nat := fun l => 5 - l.disc

/-- Severity-verbosity rank of a filter: off is 0, error 1, trace 5. -/
def LevelFilter.verbosity : LevelFilter → Nat := fun f => 5 - f.asUsize

/-- Modelled from the spec: the instrumentation layer surrounding the
subscriber (the tracing macro layer, outside the shown sources) consults
enabled(level) and invokes the packet-building callback, which ends in
Subscriber::send, only when it returns true (cheap early exit). -/
def dispatch (maxLevel : LevelFilter) (st : Sys) (l : Level) (p : TracePacket) : Sys :=
  if subscriberEnabled maxLevel l then (send st p).1 else st

lemma one_mod_u64 : 1 % U64_MOD = 1 := rfl

lemma allocAfter_eq (k : Nat) : allocAfter k = ⟨(1 + k) % U64_MOD⟩ := by
  induction k with
  | zero => rfl
  | succ k ih =>
      rw [allocAfter, ih]
      simp only [new_span_id]
      congr 1
      conv_rhs => rw [show 1 + (k + 1) = 1 + k + 1 from by omega, Nat.add_mod (1 + k) 1]
      rw [one_mod_u64]

lemma nthSpanId_eq (n : Nat) (h : 1 ≤ n) :
    nthSpanId n = if n % U64_MOD = 0 then none else some (n % U64_MOD) := by
  simp only [nthSpanId]
  rw [allocAfter_eq, show 1 + (n - 1) = n from by omega]
  simp [new_span_id]

lemma step_enabled_eq_or (cap : Nat) (st : Sys) (e : Ev) :
    (step cap st e).enabled = st.enabled ∨ (step cap st e).enabled = false := by
  cases e with
  | send p =>
      simp only [step, send]
      split
      · exact Or.inl rfl
      · split
        · exact Or.inr rfl
        · split
          · exact Or.inl rfl
          · exact Or.inl rfl
  | connect ok now =>
      simp only [step]
      split
      · split
        · exact Or.inl rfl
        · exact Or.inr rfl
      · exact Or.inl rfl
  | work enc wOk fOk now =>
      simp only [step]
      split
      · split
        · exact Or.inl rfl
        · split
          · exact Or.inl rfl
          · split
            · exact Or.inr rfl
            · split
              · split
                · exact Or.inl rfl
                · exact Or.inl rfl
              · exact Or.inl rfl
      · exact Or.inl rfl

lemma run_enabled_false (cap : Nat) (evs : List Ev) :
    ∀ st : Sys, st.enabled = false → (run cap st evs).enabled = false := by
  induction evs with
  | nil => intro st h; exact h
  | cons e evs ih =>
      intro st h
      have h3 : (step cap st e).enabled = false := by
        rcases step_enabled_eq_or cap st e with h2 | h2
        · rw [h2, h]
        · exact h2
      exact ih (step cap st e) h3

lemma step_stopped (cap : Nat) (st : Sys) (ls : Loop) (e : Ev)
    (h : st.wstatus = .stopped ls) :
    step cap st e = st ∨ step cap st e = { st with enabled := false } := by
  cases e with
  | send p =>
      have hco : st.channelOpen = false := by simp [Sys.channelOpen, h]
      by_cases hen : st.enabled = false
      · left
        simp [step, send, hen]
      · right
        simp [step, send, hen, hco]
  | connect ok now =>
      simp only [step]
      rw [h]
      exact Or.inl rfl
  | work enc wOk fOk now =>
      simp only [step]
      rw [h]
      exact Or.inl rfl

lemma run_stopped (cap : Nat) (evs : List Ev) :
    ∀ (st : Sys) (ls : Loop), st.wstatus = .stopped ls →
      (run cap st evs).wstatus = .stopped ls ∧
      (run cap st evs).queue = st.queue ∧
      (run cap st evs).delivered = st.delivered := by
  induction evs with
  | nil => intro st ls h; exact ⟨h, rfl, rfl⟩
  | cons e evs ih =>
      intro st ls h
      rcases step_stopped cap st ls e h with h2 | h2
      · rw [show run cap st (e :: evs) = run cap (step cap st e) evs from rfl, h2]
        exact ih st ls h
      · rw [show run cap st (e :: evs) = run cap (step cap st e) evs from rfl, h2]
        have h3 : ({ st with enabled := false } : Sys).wstatus = .stopped ls := h
        obtain ⟨a, b, c⟩ := ih { st with enabled := false } ls h3
        exact ⟨a, b, c⟩

lemma step_work_encode_none (cap : Nat) (st : Sys) (ls : Loop) (p : TracePacket)
    (rest : List TracePacket) (wOk fOk : Bool) (now : Nat)
    (hw : st.wstatus = .streaming ls) (hq : st.queue = p :: rest) :
    step cap st (.work none wOk fOk now) = { st with queue := rest } := by
  simp only [step, hw, hq]

lemma step_work_write_fail (cap : Nat) (st : Sys) (ls : Loop) (p : TracePacket)
    (rest : List TracePacket) (bytes : List Nat) (wOk fOk : Bool) (now : Nat)
    (hw : st.wstatus = .streaming ls) (hq : st.queue = p :: rest)
    (hb : bufWrite cap ls.buffer ls.delivered bytes wOk = none) :
    step cap st (.work (some bytes) wOk fOk now) =
      { st with enabled := false, queue := rest, wstatus := .stopped ls } := by
  simp only [step, hw, hq, hb]

lemma step_work_flush (cap : Nat) (st : Sys) (ls : Loop) (p : TracePacket)
    (rest : List TracePacket) (bytes buf del : List Nat) (wOk : Bool) (now : Nat)
    (hw : st.wstatus = .streaming ls) (hq : st.queue = p :: rest)
    (hb : bufWrite cap ls.buffer ls.delivered bytes wOk = some (buf, del))
    (ht : ls.lastFlush + FLUSH_INTERVAL < now) :
    step cap st (.work (some bytes) wOk true now) =
      { st with queue := rest, wstatus := .streaming ⟨[], del ++ buf, now⟩ } := by
  simp [step, hw, hq, hb, if_pos ht]

lemma step_work_flush_panic (cap : Nat) (st : Sys) (ls : Loop) (p : TracePacket)
    (rest : List TracePacket) (bytes buf del : List Nat) (wOk : Bool) (now : Nat)
    (hw : st.wstatus = .streaming ls) (hq : st.queue = p :: rest)
    (hb : bufWrite cap ls.buffer ls.delivered bytes wOk = some (buf, del))
    (ht : ls.lastFlush + FLUSH_INTERVAL < now) :
    step cap st (.work (some bytes) wOk false now) =
      { st with queue := rest, wstatus := .panicked ⟨buf, del, ls.lastFlush⟩ } := by
  simp [step, hw, hq, hb, if_pos ht]

lemma subscriberEnabled_iff : ∀ (f : LevelFilter) (l : Level),
    subscriberEnabled f l = true ↔ l.verbosity ≤ f.verbosity := by
  intro f l
  cases f <;> cases l <;> decide

/-- C1 (amended): for the first 2^64 - 1 allocations the allocator behaves
as the claim states: the n-th allocated span id equals n, every returned id
is nonzero, and ids are strictly increasing in allocation order.  The
amendment is forced by the wrap of the AtomicU64 counter at the 2^64-th
allocation, where span::Id::from_u64 panics on the zero id and later ids
repeat from 1. -/
theorem C1_span_ids_amended :
    (∀ n : Nat, 1 ≤ n → n < U64_MOD → nthSpanId n = some n) ∧
    (∀ n i : Nat, nthSpanId n = some i → i ≠ 0) ∧
    (∀ n m : Nat, 1 ≤ n → n < m → m < U64_MOD →
      ∃ i j : Nat, nthSpanId n = some i ∧ nthSpanId m = some j ∧ i < j) := by
  have h1 : ∀ n : Nat, 1 ≤ n → n < U64_MOD → nthSpanId n = some n := by
    intro n hn hlt
    rw [nthSpanId_eq n hn, Nat.mod_eq_of_lt hlt, if_neg (by omega)]
  refine ⟨h1, ?_, ?_⟩
  · intro n i h
    by_cases hn : 1 ≤ n
    · rw [nthSpanId_eq n hn] at h
      split at h
      · exact absurd h (by simp)
      · next hz =>
          injection h with h
          omega
    · have hzero : n = 0 := by omega
      subst hzero
      have h0 : nthSpanId 0 = some 1 := rfl
      rw [h0] at h
      injection h with h
      omega
  · intro n m hn hnm hm
    exact ⟨n, m, h1 n hn (by omega), h1 m (by omega) hm, hnm⟩

/-- Witness for C1: the third allocation returns id 3, and the ids of the
third and fifth allocations are in strict order. -/
theorem C1_witness :
    nthSpanId 3 = some 3 ∧
    (∃ i j : Nat, nthSpanId 3 = some i ∧ nthSpanId 5 = some j ∧ i < j) :=
  ⟨C1_span_ids_amended.1 3 (by norm_num) (by norm_num [U64_MOD]),
   C1_span_ids_amended.2.2 3 5 (by norm_num) (by norm_num) (by norm_num [U64_MOD])⟩

/-- C1 is false as literally stated: at the 2^64-th allocation the AtomicU64
counter has wrapped, so instead of returning id 2^64 the allocator panics on
the zero id inside span::Id::from_u64, and the following allocation returns
id 1 again — equal to the very first allocation's id — so the sequence of
returned ids is not strictly increasing and the n-th allocated id is not n. -/
theorem C1_counterexample :
    nthSpanId 18446744073709551616 = none ∧
    nthSpanId 18446744073709551617 = some 1 ∧
    nthSpanId 1 = some 1 := by
  refine ⟨?_, ?_, rfl⟩
  · rw [nthSpanId_eq 18446744073709551616 (by norm_num)]
    norm_num [U64_MOD]
  · rw [nthSpanId_eq 18446744073709551617 (by norm_num)]
    norm_num [U64_MOD]

/-- C2 (amended): at every streaming-loop iteration that successfully
encodes and writes a packet, if more than FLUSH_INTERVAL milliseconds have
elapsed since the last flush then the whole batching buffer is flushed to
the socket and the flush timer is reset to now, regardless of how full the
buffer is; buffered bytes are therefore delivered at the first such
iteration.  The delivery-latency bound of the original claim holds only
when the worker processes a further packet after the interval elapses: the
flush check runs after the blocking receive, so with no further packet the
worker stays blocked and never flushes (see the counterexample). -/
theorem C2_flush_amended :
    ∀ (cap : Nat) (st : Sys) (ls : Loop) (p : TracePacket) (rest : List TracePacket)
      (bytes buf del : List Nat) (wOk : Bool) (now : Nat),
      st.wstatus = .streaming ls → st.queue = p :: rest →
      bufWrite cap ls.buffer ls.delivered bytes wOk = some (buf, del) →
      ls.lastFlush + FLUSH_INTERVAL < now →
      (step cap st (.work (some bytes) wOk true now)).wstatus
          = .streaming ⟨[], del ++ buf, now⟩ ∧
      (step cap st (.work (some bytes) wOk true now)).delivered = del ++ buf ∧
      (step cap st (.work (some bytes) wOk true now)).buffered = [] := by
  intro cap st ls p rest bytes buf del wOk now hw hq hb ht
  rw [step_work_flush cap st ls p rest bytes buf del wOk now hw hq hb ht]
  exact ⟨rfl, rfl, rfl⟩

/-- Witness for C2: with a nonempty batching buffer and 501 ms elapsed, the
iteration flushes everything and empties the buffer. -/
theorem C2_witness :
    (step 8 ⟨true, [⟨1⟩], .streaming ⟨[3], [], 0⟩⟩ (.work (some [9]) true true 501)).delivered
        = [3, 9] ∧
    (step 8 ⟨true, [⟨1⟩], .streaming ⟨[3], [], 0⟩⟩ (.work (some [9]) true true 501)).buffered
        = [] :=
  have h := C2_flush_amended 8 ⟨true, [⟨1⟩], .streaming ⟨[3], [], 0⟩⟩ ⟨[3], [], 0⟩ ⟨1⟩ []
      [9] [3, 9] [] true 501 rfl rfl rfl (by norm_num [FLUSH_INTERVAL])
  ⟨h.2.1, h.2.2⟩

/-- C2 is false as stated: a concrete run in which one packet (bytes [7])
is enqueued and processed 100 ms after the last flush, so no flush is due;
the worker then blocks on the empty queue, and even at time 1000000 — far
beyond the 500 ms flush interval after the enqueue — the packet's bytes
are still sitting in the batching buffer, undelivered, although the sink
never filled the buffer and every write succeeded. -/
theorem C2_counterexample :
    (run 1024 sysInit
        [Ev.connect true 0, Ev.send ⟨7⟩, Ev.work (some [7]) true true 100,
         Ev.work (some [7]) true true 1000000]).delivered = [] ∧
    (run 1024 sysInit
        [Ev.connect true 0, Ev.send ⟨7⟩, Ev.work (some [7]) true true 100,
         Ev.work (some [7]) true true 1000000]).buffered = [7] := by
  constructor <;> rfl

/-- C3: the enabled latch is monotonic: it starts true at init, no step of
the pipeline (facade send, worker connect, worker loop iteration) ever
stores true, and along every execution, once the latch is false it stays
false. -/
theorem C3_latch_monotonic :
    sysInit.enabled = true ∧
    (∀ (cap : Nat) (st : Sys) (e : Ev),
      (step cap st e).enabled = true → st.enabled = true) ∧
    (∀ (cap : Nat) (st : Sys) (evs : List Ev),
      st.enabled = false → (run cap st evs).enabled = false) := by
  refine ⟨rfl, ?_, ?_⟩
  · intro cap st e h
    rcases step_enabled_eq_or cap st e with h2 | h2
    · rw [← h2]
      exact h
    · rw [h2] at h
      exact absurd h (by simp)
  · intro cap st evs h
    exact run_enabled_false cap evs st h

/-- Witness for C3: a disabled latch stays false across a connect event. -/
theorem C3_witness :
    (run 0 ⟨false, [], .connecting⟩ [Ev.connect true 5]).enabled = false :=
  C3_latch_monotonic.2.2 0 ⟨false, [], .connecting⟩ [Ev.connect true 5] rfl

/-- C4: Subscriber::send is a no-op when the latch is false; when the latch
is true and the worker side has terminated (channel closed), it flips the
latch to false, enqueues nothing, changes nothing else, and a repeated call
is the fast-path no-op (idempotent); in the model it is a total function
with no error result and no panic. -/
theorem C4_send_failsafe :
    ∀ (st : Sys) (p : TracePacket),
      (st.enabled = false → send st p = (st, SendOutcome.skipped)) ∧
      (st.enabled = true → st.channelOpen = false →
        (send st p).1 = { st with enabled := false } ∧
        (send st p).2 = SendOutcome.latchedOff ∧
        (send st p).1.queue = st.queue ∧
        send (send st p).1 p = ((send st p).1, SendOutcome.skipped)) := by
  intro st p
  constructor
  · intro h
    simp [send, h]
  · intro h1 h2
    have hs : send st p = ({ st with enabled := false }, SendOutcome.latchedOff) := by
      simp [send, h1, h2]
    rw [hs]
    exact ⟨rfl, rfl, rfl, by simp [send]⟩

/-- Witness for C4: a disabled pipeline ignores a send, and a send into a
stopped worker flips the latch to false. -/
theorem C4_witness :
    send ⟨false, [], .connecting⟩ ⟨1⟩ = (⟨false, [], .connecting⟩, SendOutcome.skipped) ∧
    (send ⟨true, [], .stopped ⟨[], [], 0⟩⟩ ⟨1⟩).1 = ⟨false, [], .stopped ⟨[], [], 0⟩⟩ :=
  ⟨(C4_send_failsafe ⟨false, [], .connecting⟩ ⟨1⟩).1 rfl,
   ((C4_send_failsafe ⟨true, [], .stopped ⟨[], [], 0⟩⟩ ⟨1⟩).2 rfl rfl).1⟩

/-- C5: a connect failure at startup and a write failure mid-stream are both
fatal and final: the latch is stored false and the worker moves to the
stopped phase; from any stopped state, every further event leaves the
worker stopped with the same queue and the same delivered bytes — no packet
is ever processed again and no reconnect happens anywhere. -/
theorem C5_transport_failure_fatal :
    ∀ (cap now : Nat) (st : Sys) (ls : Loop) (p : TracePacket)
      (rest : List TracePacket) (bytes : List Nat) (wOk fOk : Bool),
      (st.wstatus = .connecting →
        (step cap st (.connect false now)).enabled = false ∧
        (step cap st (.connect false now)).wstatus = .stopped ⟨[], [], now⟩) ∧
      (st.wstatus = .streaming ls → st.queue = p :: rest →
        bufWrite cap ls.buffer ls.delivered bytes wOk = none →
        (step cap st (.work (some bytes) wOk fOk now)).enabled = false ∧
        (step cap st (.work (some bytes) wOk fOk now)).wstatus = .stopped ls) ∧
      (∀ (evs : List Ev) (st2 : Sys) (ls2 : Loop), st2.wstatus = .stopped ls2 →
        (run cap st2 evs).wstatus = .stopped ls2 ∧
        (run cap st2 evs).queue = st2.queue ∧
        (run cap st2 evs).delivered = st2.delivered) := by
  intro cap now st ls p rest bytes wOk fOk
  refine ⟨?_, ?_, ?_⟩
  · intro hc
    simp [step, hc]
  · intro hw hq hb
    rw [step_work_write_fail cap st ls p rest bytes wOk fOk now hw hq hb]
    exact ⟨rfl, rfl⟩
  · intro evs st2 ls2 h
    exact run_stopped cap evs st2 ls2 h

/-- Witness for C5: a failed connect disables and stops the worker, and the
stopped worker state is unchanged by further events. -/
theorem C5_witness :
    ((step 4 sysInit (.connect false 7)).enabled = false ∧
      (step 4 sysInit (.connect false 7)).wstatus = .stopped ⟨[], [], 7⟩) ∧
    (run 4 ⟨false, [⟨2⟩], .stopped ⟨[], [5], 0⟩⟩ [Ev.connect true 9]).wstatus
        = .stopped ⟨[], [5], 0⟩ :=
  ⟨(C5_transport_failure_fatal 4 7 sysInit ⟨[], [], 0⟩ ⟨0⟩ [] [] true true).1 rfl,
   ((C5_transport_failure_fatal 4 9 sysInit ⟨[], [], 0⟩ ⟨0⟩ [] [] true true).2.2
      [Ev.connect true 9] ⟨false, [⟨2⟩], .stopped ⟨[], [5], 0⟩⟩ ⟨[], [5], 0⟩ rfl).1⟩

/-- C6: new_span returns exactly the id produced by the allocator for this
call, and also advances the allocator exactly as new_span_id does; when the
latch is false the pipeline state is untouched, and when the enqueue fails
because the worker terminated, only the latch changes — the returned id is
the allocated one in every case. -/
theorem C6_new_span_returns_id :
    ∀ (a : AllocState) (st : Sys),
      (new_span a st).1 = (new_span_id a).1 ∧
      (new_span a st).2.1 = (new_span_id a).2 ∧
      (st.enabled = false → (new_span a st).2.2 = st) ∧
      (∀ i : Nat, (new_span_id a).1 = some i → st.enabled = true →
        st.channelOpen = false →
        (new_span a st).2.2 = { st with enabled := false }) := by
  intro a st
  rcases hni : new_span_id a with ⟨oid, a2⟩
  cases oid with
  | none =>
      refine ⟨by simp [new_span, hni], by simp [new_span, hni], ?_, ?_⟩
      · intro h
        simp [new_span, hni]
      · intro i hi h1 h2
        simp [hni] at hi
  | some id =>
      refine ⟨by simp [new_span, hni], by simp [new_span, hni], ?_, ?_⟩
      · intro h
        simp [new_span, hni, send, h]
      · intro i hi h1 h2
        simp [new_span, hni, send, h1, h2]

/-- Witness for C6: on a disabled pipeline, new_span still returns the
freshly allocated id 1 and leaves the state untouched. -/
theorem C6_witness :
    (new_span allocInit ⟨false, [], .connecting⟩).1 = some 1 ∧
    (new_span allocInit ⟨false, [], .connecting⟩).2.2 = ⟨false, [], .connecting⟩ :=
  have h := C6_new_span_returns_id allocInit ⟨false, [], .connecting⟩
  ⟨h.1, h.2.2.1 rfl⟩

/-- C7: when encoding the dequeued packet fails, exactly that one packet is
dropped: the resulting state is the old one with only the queue head
removed — the latch, the worker phase, the batching buffer, the delivered
bytes and the flush timer are all unchanged, and the worker remains in its
streaming loop. -/
theorem C7_encode_failure_nonfatal :
    ∀ (cap : Nat) (st : Sys) (ls : Loop) (p : TracePacket) (rest : List TracePacket)
      (wOk fOk : Bool) (now : Nat),
      st.wstatus = .streaming ls → st.queue = p :: rest →
      step cap st (.work none wOk fOk now) = { st with queue := rest } := by
  intro cap st ls p rest wOk fOk now hw hq
  exact step_work_encode_none cap st ls p rest wOk fOk now hw hq

/-- Witness for C7: a concrete failed encode drops one packet and nothing
else changes. -/
theorem C7_witness :
    step 8 ⟨true, [⟨1⟩, ⟨2⟩], .streaming ⟨[4], [5], 3⟩⟩ (.work none true true 0)
      = ⟨true, [⟨2⟩], .streaming ⟨[4], [5], 3⟩⟩ :=
  C7_encode_failure_nonfatal 8 ⟨true, [⟨1⟩, ⟨2⟩], .streaming ⟨[4], [5], 3⟩⟩
    ⟨[4], [5], 3⟩ ⟨1⟩ [⟨2⟩] true true 0 rfl rfl

/-- C8: Subscriber::enabled returns true exactly when the call's level is at
or below the configured maximum (in the severity-verbosity reading of the
spec), and the instrumentation dispatch enqueues a packet for a call iff
its level passes that test, while the pipeline is enabled: calls strictly
above the maximum contribute nothing to the queue, calls at or below it
are enqueued. -/
theorem C8_severity_filtering :
    (∀ (f : LevelFilter) (l : Level),
      subscriberEnabled f l = true ↔ l.verbosity ≤ f.verbosity) ∧
    (∀ (f : LevelFilter) (st : Sys) (l : Level) (p : TracePacket),
      st.enabled = true → st.channelOpen = true →
      st.queue.length < MPSC_CHANNEL_BOUND →
      (dispatch f st l p).queue =
        if l.verbosity ≤ f.verbosity then st.queue ++ [p] else st.queue) := by
  refine ⟨subscriberEnabled_iff, ?_⟩
  intro f st l p h1 h2 h3
  cases hse : subscriberEnabled f l with
  | false =>
      rw [if_neg (fun hv => by
        have hc := (subscriberEnabled_iff f l).mpr hv
        rw [hse] at hc
        exact Bool.false_ne_true hc)]
      simp [dispatch, hse]
  | true =>
      rw [if_pos ((subscriberEnabled_iff f l).mp hse)]
      simp [dispatch, hse, send, h1, h2, h3]

/-- Witness for C8: with max level INFO, an ERROR-level call is enabled and
a DEBUG-level call adds nothing to the queue. -/
theorem C8_witness :
    subscriberEnabled LevelFilter.info Level.error = true ∧
    (dispatch LevelFilter.info sysInit Level.debug ⟨2⟩).queue = [] :=
  have h1 := (C8_severity_filtering.1 LevelFilter.info Level.error).mpr (by decide)
  have h2 := C8_severity_filtering.2 LevelFilter.info sysInit Level.debug ⟨2⟩ rfl rfl
    (by decide)
  ⟨h1, by rw [h2]; decide⟩

/-- C9: the channel bound is 512 packets; while the pipeline is enabled and
the channel open, a send into a non-full queue appends exactly that one
packet, a send into a full queue blocks — the state is unchanged and the
packet is not discarded — and as soon as the worker consumes one slot
(here: by receiving the queue head) the retried send enqueues the packet. -/
theorem C9_bounded_queue_no_drop :
    MPSC_CHANNEL_BOUND = 512 ∧
    ∀ (cap : Nat) (st : Sys) (p : TracePacket),
      st.enabled = true → st.channelOpen = true →
      (st.queue.length < 512 →
        (send st p).1.queue = st.queue ++ [p] ∧ (send st p).2 = SendOutcome.enqueued) ∧
      (st.queue.length = 512 → send st p = (st, SendOutcome.blocked)) ∧
      (∀ (ls : Loop) (q0 : TracePacket) (rest : List TracePacket)
         (wOk fOk : Bool) (now : Nat),
        st.wstatus = .streaming ls → st.queue = q0 :: rest →
        st.queue.length = 512 →
        (send (step cap st (.work none wOk fOk now)) p).2 = SendOutcome.enqueued ∧
        (send (step cap st (.work none wOk fOk now)) p).1.queue = rest ++ [p]) := by
  refine ⟨rfl, ?_⟩
  intro cap st p h1 h2
  refine ⟨?_, ?_, ?_⟩
  · intro hlt
    constructor <;> simp [send, h1, h2, MPSC_CHANNEL_BOUND, hlt]
  · intro heq
    simp [send, h1, h2, MPSC_CHANNEL_BOUND, heq]
  · intro ls q0 rest wOk fOk now hw hq hlen
    rw [step_work_encode_none cap st ls q0 rest wOk fOk now hw hq]
    have hrest : rest.length < 512 := by
      rw [hq] at hlen
      simp at hlen
      omega
    constructor <;> simp [send, Sys.channelOpen, h1, hw, hrest, MPSC_CHANNEL_BOUND]

/-- Witness for C9: with 512 packets in flight the producer call blocks with
no state change; after the worker receives one packet, the retry enqueues. -/
theorem C9_witness :
    send ⟨true, List.replicate 512 ⟨0⟩, .streaming ⟨[], [], 0⟩⟩ ⟨1⟩
      = (⟨true, List.replicate 512 ⟨0⟩, .streaming ⟨[], [], 0⟩⟩, SendOutcome.blocked) ∧
    (send (step 4 ⟨true, List.replicate 512 ⟨0⟩, .streaming ⟨[], [], 0⟩⟩
        (.work none true true 0)) ⟨1⟩).2 = SendOutcome.enqueued :=
  have h := C9_bounded_queue_no_drop.2 4
    ⟨true, List.replicate 512 ⟨0⟩, .streaming ⟨[], [], 0⟩⟩ ⟨1⟩ rfl rfl
  ⟨h.2.1 (by rw [List.length_replicate]),
   (h.2.2 ⟨[], [], 0⟩ ⟨0⟩ (List.replicate 511 ⟨0⟩) true true 0 rfl rfl
      (by rw [List.length_replicate])).1⟩

/-- C10: when the periodic flush fails, the worker panics via expect: it
ends in the panicked phase carrying the current buffer, with the enabled
latch unchanged — it does not take the stopped, latch-false path used for
write failures; the latch becomes false only later, when a facade send
observes the closed channel of the dead worker. -/
theorem C10_flush_failure_panics :
    ∀ (cap : Nat) (st : Sys) (ls : Loop) (p : TracePacket) (rest : List TracePacket)
      (bytes buf del : List Nat) (wOk : Bool) (now : Nat),
      st.wstatus = .streaming ls → st.queue = p :: rest →
      bufWrite cap ls.buffer ls.delivered bytes wOk = some (buf, del) →
      ls.lastFlush + FLUSH_INTERVAL < now →
      (step cap st (.work (some bytes) wOk false now)).wstatus
          = .panicked ⟨buf, del, ls.lastFlush⟩ ∧
      (step cap st (.work (some bytes) wOk false now)).enabled = st.enabled ∧
      (∀ ls2 : Loop,
        (step cap st (.work (some bytes) wOk false now)).wstatus ≠ .stopped ls2) ∧
      (st.enabled = true →
        (send (step cap st (.work (some bytes) wOk false now)) p).1.enabled = false ∧
        (send (step cap st (.work (some bytes) wOk false now)) p).2
            = SendOutcome.latchedOff) := by
  intro cap st ls p rest bytes buf del wOk now hw hq hb ht
  rw [step_work_flush_panic cap st ls p rest bytes buf del wOk now hw hq hb ht]
  refine ⟨rfl, rfl, ?_, ?_⟩
  · intro ls2 hcontra
    simp at hcontra
  · intro h1
    constructor <;> simp [send, Sys.channelOpen, h1]

/-- Witness for C10: a concrete failed flush leaves the latch true and the
worker panicked; the next facade send then flips the latch to false. -/
theorem C10_witness :
    (step 4 ⟨true, [⟨1⟩], .streaming ⟨[], [], 0⟩⟩ (.work (some [9]) true false 501)).wstatus
        = .panicked ⟨[9], [], 0⟩ ∧
    (step 4 ⟨true, [⟨1⟩], .streaming ⟨[], [], 0⟩⟩ (.work (some [9]) true false 501)).enabled
        = true ∧
    (send (step 4 ⟨true, [⟨1⟩], .streaming ⟨[], [], 0⟩⟩ (.work (some [9]) true false 501))
        ⟨1⟩).1.enabled = false :=
  have h := C10_flush_failure_panics 4 ⟨true, [⟨1⟩], .streaming ⟨[], [], 0⟩⟩ ⟨[], [], 0⟩
    ⟨1⟩ [] [9] [9] [] true 501 rfl rfl rfl (by norm_num [FLUSH_INTERVAL])
  ⟨h.1, h.2.1, (h.2.2.2 rfl).1⟩

end FeoTracing
